import Mathlib

/-!
Verification of the locale generation and caching engine
(boost::locale::generator, `src/include/boost/locale/generator.hpp`).

The repository ships only the public header: the flag constants and the
declarations of the `generator` class.  The constants below are embedded
directly from the header; the behaviour of the member functions (whose
bodies are not part of the repository) is modelled from the
specification, as marked on each definition.
-/

namespace BoostLocale

/-- Unspecified character category for character independent facets
(`generator.hpp:31`). -/
def nochar_facet : Nat := 0

/-- 8-bit character facets (`generator.hpp:32`). -/
def char_facet : Nat := 1 <<< 0

/-- wide character facets (`generator.hpp:33`). -/
def wchar_t_facet : Nat := 1 <<< 1

/-- C++11 char16_t facets (`generator.hpp:34`). -/
def char16_t_facet : Nat := 1 <<< 2

/-- C++11 char32_t facets (`generator.hpp:35`). -/
def char32_t_facet : Nat := 1 <<< 3

/-- First facet specific for character type (`generator.hpp:37`). -/
def character_first_facet : Nat := char_facet

/-- Last facet specific for character type (`generator.hpp:38`). -/
def character_last_facet : Nat := char32_t_facet

/-- Special mask, generate all characters (`generator.hpp:39`). -/
def all_characters : Nat := 0xFFFF

/-- Generate conversion facets (`generator.hpp:43`). -/
def convert_facet : Nat := 1 <<< 0

/-- Generate collation facets (`generator.hpp:44`). -/
def collation_facet : Nat := 1 <<< 1

/-- Generate numbers, currency, date-time formatting facets (`generator.hpp:45`). -/
def formatting_facet : Nat := 1 <<< 2

/-- Generate numbers, currency, date-time parsing facets (`generator.hpp:46`). -/
def parsing_facet : Nat := 1 <<< 3

/-- Generate message facets (`generator.hpp:47`). -/
def message_facet : Nat := 1 <<< 4

/-- Generate character set conversion facets (`generator.hpp:48`). -/
def codepage_facet : Nat := 1 <<< 5

/-- Generate boundary analysis facet (`generator.hpp:50`). -/
def boundary_facet : Nat := 1 <<< 6

/-- First facet specific for character (`generator.hpp:52`). -/
def per_character_facet_first : Nat := convert_facet

/-- Last facet specific for character (`generator.hpp:53`). -/
def per_character_facet_last : Nat := boundary_facet

/-- Generate calendar facet (`generator.hpp:55`). -/
def calendar_facet : Nat := 1 <<< 16

/-- Generate general locale information facet (`generator.hpp:56`). -/
def information_facet : Nat := 1 <<< 17

/-- First character independent facet (`generator.hpp:58`). -/
def non_character_facet_first : Nat := calendar_facet

/-- Last character independent facet (`generator.hpp:59`). -/
def non_character_facet_last : Nat := information_facet

/-- Generate all categories (`generator.hpp:61`). -/
def all_categories : Nat := 0xFFFFFFFF

/-- Modelled from the spec: a facet is an opaque unit of locale behaviour
installed by a backend; its computation is backend-internal and out of
scope, so it is abstracted as a tag. -/
abbrev Facet : Type := Nat

/-- Modelled from the spec: a generation slot is a (category flag,
character-width flag) pair, the unit the Backend Manager selects on. -/
abbrev Slot : Type := Nat × Nat

/-- Modelled from the spec: a locale object is a bundle of facets indexed
by slot; later installations shadow earlier ones (facet-slot overwrite). -/
abbrev Locale : Type := List (Slot × Facet)

/-- Modelled from the spec: the facet a locale exposes for a slot, the
most recently installed one winning. -/
def Locale.facetAt (loc : Locale) (s : Slot) : Option Facet :=
  (loc.find? fun p => decide (p.1 = s)).map Prod.snd

/-- Modelled from the spec: a message domain is an ordered pair
(base-name, source encoding) (missing from src: generator.cpp). -/
structure MsgDomain where
  name : String
  encoding : String
deriving DecidableEq, Repr

/-- Modelled from the spec: the generation configuration snapshot, the
tuple (category mask, character mask, ANSI-encoding flag, message domain
registry state with default, search paths, option map) (missing from src:
the private generator::data state). -/
structure GenConfig where
  cats : Nat
  chars : Nat
  useAnsi : Bool
  domains : List MsgDomain
  defaultDom : Option String
  paths : List String
  options : List (String × String)
deriving DecidableEq, Repr

/-- Modelled from the spec: a cache key is the tuple (base-locale
identity, identifier string, configuration snapshot). -/
structure CacheKey where
  base : Locale
  id : String
  snap : GenConfig
deriving DecidableEq, Repr

/-- Modelled from the spec: the mutable state a generator owns — its
configuration, the cache-enabled flag and the locale cache (missing from
src: generator.cpp). -/
structure GenState where
  config : GenConfig
  cacheEnabled : Bool
  cache : List (CacheKey × Locale)
deriving DecidableEq, Repr

/-- Modelled from the spec: a backend, asked to build facets for a slot,
either declines, fails (unrecognized identifier, missing catalog), or
installs a facet. -/
inductive BackendResult where
  | decline : BackendResult
  | fail : String → BackendResult
  | install : Facet → BackendResult
deriving DecidableEq, Repr

/-- Modelled from the spec: the Backend Manager selects the backend
registered for a slot, or reports that none is available; a backend is an
opaque facet factory fed the identifier and the configuration context. -/
abbrev BackendManager : Type := Slot → Option (String → GenConfig → BackendResult)

/-- Modelled from the spec: splitting a domain spec at the first '/'
character; the remainder (if any) is the encoding part (missing from src:
generator.cpp). -/
def splitDomain : List Char → List Char × Option (List Char)
  | [] => ([], none)
  | c :: rest =>
    if c = '/' then ([], some rest)
    else
      let r := splitDomain rest
      (c :: r.1, r.2)

/-- Modelled from the spec: a domain spec string of the form "name" or
"name/encoding" parses to (name, encoding); absence of the "/encoding"
suffix implies UTF-8 source text (missing from src: generator.cpp). -/
def parseDomain (spec : String) : MsgDomain :=
  match splitDomain spec.data with
  | (n, none) => ⟨String.mk n, "UTF-8"⟩
  | (n, some e) => ⟨String.mk n, String.mk e⟩

/-- Modelled from the spec: add_messages_domain parses the spec and
registers the domain, a no-op when the base-name is already present
(first registration wins) (missing from src: generator.cpp). -/
def add_messages_domain (st : GenState) (spec : String) : GenState :=
  if st.config.domains.any (fun x => x.name == (parseDomain spec).name) then st
  else { st with config :=
    { st.config with domains := st.config.domains ++ [parseDomain spec] } }

/-- Modelled from the spec: set_default_messages_domain registers the
domain if absent, then marks its base-name as the default (missing from
src: generator.cpp). -/
def set_default_messages_domain (st : GenState) (spec : String) : GenState :=
  { add_messages_domain st spec with config :=
    { (add_messages_domain st spec).config with
        defaultDom := some (parseDomain spec).name } }

/-- Modelled from the spec: the effective default domain — the explicitly
set one, or else the first-added domain. -/
def defaultDomain (cfg : GenConfig) : Option String :=
  match cfg.defaultDom with
  | some n => some n
  | none => cfg.domains.head?.map MsgDomain.name

/-- Modelled from the spec: setter of the category mask; accepts any
32-bit value without validation (missing from src: generator.cpp). -/
def set_categories (st : GenState) (cats : Nat) : GenState :=
  { st with config := { st.config with cats := cats } }

/-- Modelled from the spec: setter of the character-width mask (missing
from src: generator.cpp). -/
def set_characters (st : GenState) (chars : Nat) : GenState :=
  { st with config := { st.config with chars := chars } }

/-- Modelled from the spec: use_ansi_encoding setter (missing from src:
generator.cpp). -/
def set_use_ansi_encoding (st : GenState) (b : Bool) : GenState :=
  { st with config := { st.config with useAnsi := b } }

/-- Modelled from the spec: locale_cache_enabled setter; toggling off
does not clear existing entries (missing from src: generator.cpp). -/
def set_locale_cache_enabled (st : GenState) (b : Bool) : GenState :=
  { st with cacheEnabled := b }

/-- Modelled from the spec: add_messages_path appends to the ordered
search-path list, never deduplicated (missing from src: generator.cpp). -/
def add_messages_path (st : GenState) (p : String) : GenState :=
  { st with config := { st.config with paths := st.config.paths ++ [p] } }

/-- Modelled from the spec: set_option upserts into the option map
(missing from src: generator.cpp). -/
def set_backend_option (st : GenState) (name value : String) : GenState :=
  { st with config := { st.config with
      options := (name, value) :: st.config.options.filter (fun p => p.1 != name) } }

/-- Modelled from the spec: clear_domains resets the domain registry
(missing from src: generator.cpp). -/
def clear_domains (st : GenState) : GenState :=
  { st with config := { st.config with domains := [], defaultDom := none } }

/-- Modelled from the spec: clear_paths resets the search-path list
(missing from src: generator.cpp). -/
def clear_paths (st : GenState) : GenState :=
  { st with config := { st.config with paths := [] } }

/-- Modelled from the spec: clear_options resets the option map (missing
from src: generator.cpp). -/
def clear_options (st : GenState) : GenState :=
  { st with config := { st.config with options := [] } }

/-- Modelled from the spec: clear_cache removes all cached locales
(missing from src: generator.cpp). -/
def clear_cache (st : GenState) : GenState :=
  { st with cache := [] }

/-- Modelled from the spec: the fixed enumeration order of character
widths, taken from the header's flag order. -/
def characterWidths : List Nat :=
  [char_facet, wchar_t_facet, char16_t_facet, char32_t_facet]

/-- Modelled from the spec: the fixed enumeration order of per-character
categories, taken from the header's flag order. -/
def perCharCategories : List Nat :=
  [convert_facet, collation_facet, formatting_facet, parsing_facet,
   message_facet, codepage_facet, boundary_facet]

/-- Modelled from the spec: the character-independent categories, which
use the nochar pseudo-width. -/
def indepCategories : List Nat := [calendar_facet, information_facet]

/-- Modelled from the spec: the deterministic list of (category, width)
slots requested by a configuration — each selected width crossed with
each selected per-character category, then the selected
character-independent categories with the nochar pseudo-width. -/
def requestedSlots (cfg : GenConfig) : List Slot :=
  ((characterWidths.filter fun w => (cfg.chars &&& w) != 0).flatMap fun w =>
    (perCharCategories.filter fun c => (cfg.cats &&& c) != 0).map fun c => (c, w))
  ++ (indepCategories.filter fun c => (cfg.cats &&& c) != 0).map fun c => (c, nochar_facet)

/-- Modelled from the spec: cache lookup by exact key. -/
def cacheGet (cache : List (CacheKey × Locale)) (k : CacheKey) : Option Locale :=
  (cache.find? fun p => decide (p.1 = k)).map Prod.snd

/-- Modelled from the spec: cache store under a key, superseding any
stale entry for the same key. -/
def cachePut (cache : List (CacheKey × Locale)) (k : CacheKey) (v : Locale) :
    List (CacheKey × Locale) :=
  (k, v) :: cache

/-- Modelled from the spec: the generation loop over the requested slots
(§4.2 step 4, missing from src: generator.cpp).  For each slot the
Backend Manager selects a backend; no backend or a declining backend
skips the slot; a failing backend aborts the whole build with its error;
an installing backend overwrites the slot on the working locale.  The
second component counts backend invocations. -/
def buildSlots (mgr : BackendManager) (cfg : GenConfig) (id : String) :
    List Slot → Locale → Nat → Except String Locale × Nat
  | [], loc, n => (Except.ok loc, n)
  | s :: rest, loc, n =>
    match mgr s with
    | none => buildSlots mgr cfg id rest loc n
    | some b =>
      match b id cfg with
      | BackendResult.decline => buildSlots mgr cfg id rest loc (n + 1)
      | BackendResult.fail e => (Except.error e, n + 1)
      | BackendResult.install f => buildSlots mgr cfg id rest ((s, f) :: loc) (n + 1)

/-- Modelled from the spec: generate(base, id) (§4.2, missing from src:
generator.cpp).  Builds the snapshot, consults the cache when enabled
(a hit returns the cached locale with no backend invocation), otherwise
runs the build loop from the base locale, stores a successful result in
the cache when enabled, and propagates a backend failure unchanged
without caching.  Returns (outcome, new generator state, number of
backend invocations). -/
def generate (mgr : BackendManager) (st : GenState) (base : Locale) (id : String) :
    Except String Locale × GenState × Nat :=
  if st.cacheEnabled then
    match cacheGet st.cache ⟨base, id, st.config⟩ with
    | some loc => (Except.ok loc, st, 0)
    | none =>
      match buildSlots mgr st.config id (requestedSlots st.config) base 0 with
      | (Except.ok loc, n) =>
        (Except.ok loc, { st with cache := cachePut st.cache ⟨base, id, st.config⟩ loc }, n)
      | (Except.error e, n) => (Except.error e, st, n)
  else
    match buildSlots mgr st.config id (requestedSlots st.config) base 0 with
    | (Except.ok loc, n) => (Except.ok loc, st, n)
    | (Except.error e, n) => (Except.error e, st, n)

/-- Modelled from the spec: the classic locale used as the implicit base
of the one-argument generate — the pristine locale with no generated
facets. -/
def classicLocale : Locale := []

/-- Modelled from the spec: the one-argument generate(id), equivalent to
generate(classic_base, id) (missing from src: generator.cpp). -/
def generate1 (mgr : BackendManager) (st : GenState) (id : String) :
    Except String Locale × GenState × Nat :=
  generate mgr st classicLocale id

/-- The invocation operator, a shortcut to generate(id)
(`generator.hpp:197`). -/
def generator_call (mgr : BackendManager) (st : GenState) (id : String) :
    Except String Locale × GenState × Nat :=
  generate1 mgr st id

/-- Modelled from the spec: a slot is skipped during generation when no
backend is registered for it or the selected backend declines it. -/
def slotSkipped (mgr : BackendManager) (cfg : GenConfig) (id : String) (s : Slot) : Prop :=
  mgr s = none ∨ ∃ b, mgr s = some b ∧ b id cfg = BackendResult.decline

/-- Concrete test fixture: the default-shaped configuration (all
categories, all characters, UTF-8, empty registry). -/
def cfgAll : GenConfig := ⟨all_categories, all_characters, false, [], none, [], []⟩

/-- Concrete test fixture: fresh generator state with caching enabled. -/
def stCacheOn : GenState := ⟨cfgAll, true, []⟩

/-- Concrete test fixture: fresh generator state with caching disabled. -/
def stCacheOff : GenState := ⟨cfgAll, false, []⟩

/-- Concrete test fixture: a manager with no backend registered at all. -/
def noBackend : BackendManager := fun _ => none

/-- Concrete test fixture: a manager whose backend always fails. -/
def failingBackend : BackendManager :=
  fun _ => some fun _ _ => BackendResult.fail "bad id"

lemma facetAt_cons_ne (t : Slot) (f : Facet) (loc : Locale) (s : Slot) (h : t ≠ s) :
    Locale.facetAt ((t, f) :: loc) s = loc.facetAt s := by
  simp [Locale.facetAt, List.find?, h]

lemma buildSlots_skipped_facetAt (mgr : BackendManager) (cfg : GenConfig) (id : String)
    (s : Slot) (hs : slotSkipped mgr cfg id s) :
    ∀ (slots : List Slot) (loc : Locale) (n : Nat) (res : Locale) (m : Nat),
      buildSlots mgr cfg id slots loc n = (Except.ok res, m) →
      res.facetAt s = loc.facetAt s := by
  intro slots
  induction slots with
  | nil =>
    intro loc n res m h
    simp only [buildSlots, Prod.mk.injEq, Except.ok.injEq] at h
    rw [← h.1]
  | cons t rest ih =>
    intro loc n res m h
    cases hm : mgr t with
    | none =>
      simp only [buildSlots, hm] at h
      exact ih loc n res m h
    | some b =>
      cases hb : b id cfg with
      | decline =>
        simp only [buildSlots, hm, hb] at h
        exact ih loc (n + 1) res m h
      | fail e =>
        simp only [buildSlots, hm, hb, Prod.mk.injEq] at h
        exact absurd h.1 (by simp)
      | install f =>
        simp only [buildSlots, hm, hb] at h
        have hne : t ≠ s := by
          intro hts
          subst hts
          rcases hs with h1 | ⟨b', hb', hd⟩
          · rw [hm] at h1; exact Option.noConfusion h1
          · rw [hm] at hb'
            have hbb : b = b' := by injection hb'
            subst hbb
            rw [hd] at hb
            exact BackendResult.noConfusion hb
        rw [ih ((t, f) :: loc) (n + 1) res m h]
        exact facetAt_cons_ne t f loc s hne

lemma buildSlots_noBackend (cfg : GenConfig) (id : String) :
    ∀ (slots : List Slot) (loc : Locale) (n : Nat),
      buildSlots (fun _ => none) cfg id slots loc n = (Except.ok loc, n) := by
  intro slots
  induction slots with
  | nil => intro loc n; rfl
  | cons t rest ih => intro loc n; rw [buildSlots]; exact ih loc n

lemma generate_frame (mgr : BackendManager) (st : GenState) (base : Locale) (id : String) :
    (generate mgr st base id).2.1.config = st.config ∧
    (generate mgr st base id).2.1.cacheEnabled = st.cacheEnabled := by
  unfold generate
  split
  · split
    · exact ⟨rfl, rfl⟩
    · split
      · exact ⟨rfl, rfl⟩
      · exact ⟨rfl, rfl⟩
  · split
    · exact ⟨rfl, rfl⟩
    · exact ⟨rfl, rfl⟩

/-- C10: each character-facet flag (1, 2, 4, 8) and each category flag
(bits 0..6 plus calendar = 2^16 and information = 2^17) is a distinct
single bit within its family, and the "all" shortcut masks strictly
exceed the unions of the defined flags (0xFFFF > 0xF and
0xFFFFFFFF > 0x3007F) while still containing them, so selecting "all"
sets reserved bits beyond the defined flags. -/
theorem facet_flag_values_and_all_masks :
    (char_facet = 2 ^ 0 ∧ wchar_t_facet = 2 ^ 1 ∧ char16_t_facet = 2 ^ 2 ∧
      char32_t_facet = 2 ^ 3) ∧
    (convert_facet = 2 ^ 0 ∧ collation_facet = 2 ^ 1 ∧ formatting_facet = 2 ^ 2 ∧
      parsing_facet = 2 ^ 3 ∧ message_facet = 2 ^ 4 ∧ codepage_facet = 2 ^ 5 ∧
      boundary_facet = 2 ^ 6 ∧ calendar_facet = 2 ^ 16 ∧ information_facet = 2 ^ 17) ∧
    (char_facet ||| wchar_t_facet ||| char16_t_facet ||| char32_t_facet) = 0xF ∧
    0xF < all_characters ∧ (0xF &&& all_characters) = 0xF ∧
    (convert_facet ||| collation_facet ||| formatting_facet ||| parsing_facet |||
      message_facet ||| codepage_facet ||| boundary_facet ||| calendar_facet |||
      information_facet) = 0x3007F ∧
    0x3007F < all_categories ∧ (0x3007F &&& all_categories) = 0x3007F := by
  decide

/-- C9: the one-argument generate(id) is generate(classic_base, id), and
the invocation operator returns exactly generate(id). -/
theorem generate1_classic_and_call (mgr : BackendManager) (st : GenState) (id : String) :
    generate1 mgr st id = generate mgr st classicLocale id ∧
    generator_call mgr st id = generate1 mgr st id :=
  ⟨rfl, rfl⟩

/-- C7: cache keys carry the full configuration snapshot, so two keys
whose snapshots differ only in the ANSI-encoding flag are distinct, and a
cache lookup never returns an entry stored under a different key. -/
theorem cache_key_ansi_distinct (base : Locale) (id : String) (c1 c2 : GenConfig)
    (h : c1.useAnsi ≠ c2.useAnsi) :
    ((⟨base, id, c1⟩ : CacheKey) ≠ ⟨base, id, c2⟩) ∧
    ∀ (cache : List (CacheKey × Locale)) (v : Locale),
      cacheGet (cachePut cache ⟨base, id, c1⟩ v) ⟨base, id, c2⟩ =
        cacheGet cache ⟨base, id, c2⟩ := by
  have hk : (⟨base, id, c1⟩ : CacheKey) ≠ ⟨base, id, c2⟩ := by
    intro heq
    apply h
    have : c1 = c2 := congrArg CacheKey.snap heq
    rw [this]
  refine ⟨hk, ?_⟩
  intro cache v
  simp [cacheGet, cachePut, List.find?, hk]

/-- Witness for C7 at a concrete pair of snapshots differing only in the
ANSI flag. -/
theorem cache_key_ansi_distinct_witness :
    ((⟨[], "en", cfgAll⟩ : CacheKey) ≠ ⟨[], "en", { cfgAll with useAnsi := true }⟩) ∧
    ∀ (cache : List (CacheKey × Locale)) (v : Locale),
      cacheGet (cachePut cache ⟨[], "en", cfgAll⟩ v)
          ⟨[], "en", { cfgAll with useAnsi := true }⟩ =
        cacheGet cache ⟨[], "en", { cfgAll with useAnsi := true }⟩ :=
  cache_key_ansi_distinct [] "en" cfgAll { cfgAll with useAnsi := true } (by decide)

/-- C1: with caching enabled, a second generate(id) call on the same
generator with no intervening mutation returns the very same locale
object from the cache, leaves the state unchanged and performs zero
backend invocations. -/
theorem generate_cached_second_call (mgr : BackendManager) (st : GenState)
    (base : Locale) (id : String) (loc : Locale) (st' : GenState) (n : Nat)
    (hen : st.cacheEnabled = true)
    (h : generate mgr st base id = (Except.ok loc, st', n)) :
    generate mgr st' base id = (Except.ok loc, st', 0) := by
  unfold generate at h
  rw [if_pos hen] at h
  cases hg : cacheGet st.cache ⟨base, id, st.config⟩ with
  | some l =>
    simp only [hg] at h
    injection h with h1 h23
    injection h23 with h2 h3
    injection h1 with h1
    subst h1
    subst h2
    unfold generate
    rw [if_pos hen]
    simp only [hg]
  | none =>
    simp only [hg] at h
    cases hbu : buildSlots mgr st.config id (requestedSlots st.config) base 0 with
    | mk r m =>
      cases r with
      | error e => simp [hbu] at h
      | ok l =>
        simp only [hbu] at h
        injection h with h1 h23
        injection h23 with h2 h3
        injection h1 with h1
        subst h1
        subst h2
        unfold generate
        dsimp only
        rw [if_pos hen]
        have hget : cacheGet (cachePut st.cache ⟨base, id, st.config⟩ l)
            ⟨base, id, st.config⟩ = some l := by
          simp [cacheGet, cachePut, List.find?]
        simp only [hget]

/-- C2: a (category, width) slot for which no backend is registered or
whose selected backend declines is skipped without error: a successful
generate leaves that slot's facet exactly as in the base locale, and with
no backend registered at all generate succeeds and returns the base
locale itself. -/
theorem generate_skipped_slot :
    (∀ (mgr : BackendManager) (st : GenState) (base : Locale) (id : String) (s : Slot)
        (loc : Locale) (st2 : GenState) (n : Nat),
        slotSkipped mgr st.config id s →
        (st.cacheEnabled = false ∨ cacheGet st.cache ⟨base, id, st.config⟩ = none) →
        generate mgr st base id = (Except.ok loc, st2, n) →
        loc.facetAt s = base.facetAt s) ∧
    (∀ (st : GenState) (base : Locale) (id : String),
        (st.cacheEnabled = false ∨ cacheGet st.cache ⟨base, id, st.config⟩ = none) →
        ∃ st2, generate (fun _ => none) st base id = (Except.ok base, st2, 0)) := by
  constructor
  · intro mgr st base id s loc st2 n hskip hmiss h
    unfold generate at h
    by_cases hen : st.cacheEnabled = true
    · rw [if_pos hen] at h
      have hg : cacheGet st.cache ⟨base, id, st.config⟩ = none := by
        rcases hmiss with hc | hc
        · rw [hen] at hc; exact absurd hc (by simp)
        · exact hc
      simp only [hg] at h
      cases hbu : buildSlots mgr st.config id (requestedSlots st.config) base 0 with
      | mk r m =>
        cases r with
        | error e => simp [hbu] at h
        | ok l =>
          simp only [hbu] at h
          injection h with h1 h23
          injection h1 with h1
          subst h1
          exact buildSlots_skipped_facetAt mgr st.config id s hskip
            (requestedSlots st.config) base 0 _ m hbu
    · rw [if_neg hen] at h
      cases hbu : buildSlots mgr st.config id (requestedSlots st.config) base 0 with
      | mk r m =>
        cases r with
        | error e => simp [hbu] at h
        | ok l =>
          simp only [hbu] at h
          injection h with h1 h23
          injection h1 with h1
          subst h1
          exact buildSlots_skipped_facetAt mgr st.config id s hskip
            (requestedSlots st.config) base 0 _ m hbu
  · intro st base id hmiss
    unfold generate
    by_cases hen : st.cacheEnabled = true
    · have hg : cacheGet st.cache ⟨base, id, st.config⟩ = none := by
        rcases hmiss with hc | hc
        · rw [hen] at hc; exact absurd hc (by simp)
        · exact hc
      rw [if_pos hen]
      simp only [hg, buildSlots_noBackend st.config id (requestedSlots st.config) base 0]
      exact ⟨_, rfl⟩
    · rw [if_neg hen]
      simp only [buildSlots_noBackend st.config id (requestedSlots st.config) base 0]
      exact ⟨st, rfl⟩

/-- C3: only generate can fail; when the build loop reports a backend
failure, generate propagates that exact error to the caller and is
atomic — the generator state (cache included) is returned unchanged, and
no ok-result (in particular not the base locale) is substituted. -/
theorem generate_failure_atomic (mgr : BackendManager) (st : GenState)
    (base : Locale) (id : String) (e : String) :
    ((generate mgr st base id).1 = Except.error e → (generate mgr st base id).2.1 = st) ∧
    (cacheGet st.cache ⟨base, id, st.config⟩ = none →
      (buildSlots mgr st.config id (requestedSlots st.config) base 0).1 = Except.error e →
      generate mgr st base id =
        (Except.error e, st,
          (buildSlots mgr st.config id (requestedSlots st.config) base 0).2)) := by
  constructor
  · intro herr
    unfold generate at herr ⊢
    by_cases hen : st.cacheEnabled = true
    · rw [if_pos hen] at herr ⊢
      cases hg : cacheGet st.cache ⟨base, id, st.config⟩ with
      | some l => simp [hg] at herr
      | none =>
        cases hbu : buildSlots mgr st.config id (requestedSlots st.config) base 0 with
        | mk r m =>
          cases r with
          | ok l => simp [hg, hbu] at herr
          | error e' => simp only [hg, hbu]
    · rw [if_neg hen] at herr ⊢
      cases hbu : buildSlots mgr st.config id (requestedSlots st.config) base 0 with
      | mk r m =>
        cases r with
        | ok l => simp [hbu] at herr
        | error e' => simp only [hbu]
  · intro hmiss hfail
    unfold generate
    by_cases hen : st.cacheEnabled = true
    · rw [if_pos hen]
      cases hbu : buildSlots mgr st.config id (requestedSlots st.config) base 0 with
      | mk r m =>
        cases r with
        | ok l => rw [hbu] at hfail; simp at hfail
        | error e' =>
          rw [hbu] at hfail
          have he : e' = e := by simpa using hfail
          subst he
          simp only [hmiss, hbu]
    · rw [if_neg hen]
      cases hbu : buildSlots mgr st.config id (requestedSlots st.config) base 0 with
      | mk r m =>
        cases r with
        | ok l => rw [hbu] at hfail; simp at hfail
        | error e' =>
          rw [hbu] at hfail
          have he : e' = e := by simpa using hfail
          subst he
          simp only [hbu]

/-- C8: generate never mutates the generator's own configuration (the
category mask, character mask, domains, paths, options and flags are all
unchanged), and when caching is disabled it changes no generator state at
all — the cache is the only state it may touch, and only when caching is
enabled; the base locale, being a value, is never mutated. -/
theorem generate_pure_config (mgr : BackendManager) (st : GenState)
    (base : Locale) (id : String) :
    (generate mgr st base id).2.1.config = st.config ∧
    (generate mgr st base id).2.1.cacheEnabled = st.cacheEnabled ∧
    (st.cacheEnabled = false → (generate mgr st base id).2.1 = st) := by
  refine ⟨(generate_frame mgr st base id).1, (generate_frame mgr st base id).2, ?_⟩
  intro hoff
  unfold generate
  rw [if_neg (by simp [hoff])]
  split
  · rfl
  · rfl

/-- Witness for C1: a fresh caching generator with no backends; the first
call populates the cache, the second returns the cached empty locale with
zero backend invocations. -/
theorem generate_cached_second_call_witness :
    generate noBackend ⟨cfgAll, true, [(⟨[], "en", cfgAll⟩, [])]⟩ [] "en" =
      (Except.ok [], ⟨cfgAll, true, [(⟨[], "en", cfgAll⟩, [])]⟩, 0) :=
  generate_cached_second_call noBackend stCacheOn [] "en" []
    ⟨cfgAll, true, [(⟨[], "en", cfgAll⟩, [])]⟩ 0 rfl rfl

/-- Witness for C2: with no backend registered, generation from the
classic base succeeds, returns the base unchanged (so every slot,
e.g. (collation, char), keeps the base's facet) and invokes no backend. -/
theorem generate_skipped_slot_witness :
    Locale.facetAt ([] : Locale) (collation_facet, char_facet) =
        Locale.facetAt ([] : Locale) (collation_facet, char_facet) ∧
    ∃ st2, generate (fun _ => none) stCacheOff [] "en" = (Except.ok [], st2, 0) :=
  ⟨generate_skipped_slot.1 noBackend stCacheOff [] "en" (collation_facet, char_facet)
      [] stCacheOff 0 (Or.inl rfl) (Or.inl rfl) rfl,
   generate_skipped_slot.2 stCacheOff [] "en" (Or.inl rfl)⟩

/-- Witness for C3: a backend that always fails makes generate return
exactly that error with the state untouched, after one backend
invocation. -/
theorem generate_failure_atomic_witness :
    (generate failingBackend stCacheOff [] "en").2.1 = stCacheOff ∧
    generate failingBackend stCacheOff [] "en" =
      (Except.error "bad id", stCacheOff, 1) :=
  ⟨(generate_failure_atomic failingBackend stCacheOff [] "en" "bad id").1 rfl,
   (generate_failure_atomic failingBackend stCacheOff [] "en" "bad id").2 rfl rfl⟩

lemma splitDomain_no_slash (n : List Char) (h : '/' ∉ n) : splitDomain n = (n, none) := by
  induction n with
  | nil => rfl
  | cons c rest ih =>
    have hc : c ≠ '/' := fun hcc => h (hcc ▸ List.mem_cons_self c rest)
    have hr : '/' ∉ rest := fun hm => h (List.mem_cons_of_mem c hm)
    simp [splitDomain, hc, ih hr]

lemma splitDomain_slash (n e : List Char) (h : '/' ∉ n) :
    splitDomain (n ++ '/' :: e) = (n, some e) := by
  induction n with
  | nil => simp [splitDomain]
  | cons c rest ih =>
    have hc : c ≠ '/' := fun hcc => h (hcc ▸ List.mem_cons_self c rest)
    have hr : '/' ∉ rest := fun hm => h (List.mem_cons_of_mem c hm)
    simp [splitDomain, hc, ih hr]

lemma add_domain_mem (st : GenState) (spec : String) :
    (add_messages_domain st spec).config.domains.any
      (fun x => x.name == (parseDomain spec).name) = true := by
  unfold add_messages_domain
  by_cases hp : st.config.domains.any (fun x => x.name == (parseDomain spec).name) = true
  · rw [if_pos hp]; exact hp
  · rw [if_neg hp]
    dsimp only
    rw [List.any_append]
    simp

/-- C4: a domain spec of the form name/encoding (no slash in the name)
parses to the pair (name, encoding) and is recorded as such in the
registry, while a spec with no slash parses to (name, UTF-8). -/
theorem add_messages_domain_parse (name enc : List Char) (h : '/' ∉ name) :
    parseDomain (String.mk (name ++ '/' :: enc)) =
        ⟨String.mk name, String.mk enc⟩ ∧
    parseDomain (String.mk name) = ⟨String.mk name, "UTF-8"⟩ ∧
    ∀ st : GenState,
      st.config.domains.any
          (fun x => x.name == (parseDomain (String.mk (name ++ '/' :: enc))).name) =
        false →
      (add_messages_domain st (String.mk (name ++ '/' :: enc))).config.domains =
        st.config.domains ++ [⟨String.mk name, String.mk enc⟩] := by
  have h1 : parseDomain (String.mk (name ++ '/' :: enc)) =
      ⟨String.mk name, String.mk enc⟩ := by
    unfold parseDomain
    rw [show (String.mk (name ++ '/' :: enc)).data = name ++ '/' :: enc from rfl]
    rw [splitDomain_slash name enc h]
  have h2 : parseDomain (String.mk name) = ⟨String.mk name, "UTF-8"⟩ := by
    unfold parseDomain
    rw [show (String.mk name).data = name from rfl, splitDomain_no_slash name h]
  refine ⟨h1, h2, ?_⟩
  intro st hany
  unfold add_messages_domain
  rw [if_neg (by rw [hany]; simp)]
  dsimp only
  rw [h1]

/-- Witness for C4 at the spec's own examples. -/
theorem add_messages_domain_parse_witness :
    parseDomain "blog/windows-1255" = ⟨"blog", "windows-1255"⟩ ∧
    parseDomain "blog" = ⟨"blog", "UTF-8"⟩ ∧
    (add_messages_domain stCacheOff "blog/windows-1255").config.domains =
      [⟨"blog", "windows-1255"⟩] :=
  ⟨(add_messages_domain_parse "blog".data "windows-1255".data (by decide)).1,
   (add_messages_domain_parse "blog".data "windows-1255".data (by decide)).2.1,
   (add_messages_domain_parse "blog".data "windows-1255".data (by decide)).2.2
     stCacheOff rfl⟩

lemma add_domain_present_noop (st : GenState) (spec : String)
    (hpres : st.config.domains.any (fun x => x.name == (parseDomain spec).name) = true) :
    add_messages_domain st spec = st := by
  unfold add_messages_domain
  rw [if_pos hpres]

/-- C5: adding a domain whose base-name is already registered is a
non-failing no-op, and after registering a name and re-adding it the
registry holds exactly one entry for that base-name, carrying the
first-supplied encoding. -/
theorem add_domain_dedup_first_wins (st : GenState) (spec1 spec2 : String)
    (hname : (parseDomain spec2).name = (parseDomain spec1).name) :
    (st.config.domains.any (fun x => x.name == (parseDomain spec2).name) = true →
        add_messages_domain st spec2 = st) ∧
    (st.config.domains.all (fun x => x.name != (parseDomain spec1).name) = true →
        (add_messages_domain (add_messages_domain st spec1) spec2).config.domains.filter
            (fun x => x.name == (parseDomain spec1).name) = [parseDomain spec1]) := by
  constructor
  · intro hpres
    exact add_domain_present_noop st spec2 hpres
  · intro hall
    have hany1 : st.config.domains.any
        (fun x => x.name == (parseDomain spec1).name) = false := by
      cases hq : st.config.domains.any (fun x => x.name == (parseDomain spec1).name) with
      | false => rfl
      | true =>
        exfalso
        obtain ⟨x, hx, hxe⟩ := List.any_eq_true.mp hq
        have hne := List.all_eq_true.mp hall x hx
        rw [bne_iff_ne] at hne
        exact hne (by simpa using hxe)
    have hadd1 : add_messages_domain st spec1 = { st with config :=
        { st.config with domains := st.config.domains ++ [parseDomain spec1] } } := by
      unfold add_messages_domain
      rw [if_neg (by rw [hany1]; simp)]
    have hany2 : (add_messages_domain st spec1).config.domains.any
        (fun x => x.name == (parseDomain spec2).name) = true := by
      rw [hadd1]
      dsimp only
      rw [List.any_append]
      simp [hname]
    have hadd2 : add_messages_domain (add_messages_domain st spec1) spec2 =
        add_messages_domain st spec1 :=
      add_domain_present_noop (add_messages_domain st spec1) spec2 hany2
    rw [hadd2, hadd1]
    dsimp only
    rw [List.filter_append]
    have hfilter : st.config.domains.filter
        (fun x => x.name == (parseDomain spec1).name) = [] := by
      rw [List.filter_eq_nil_iff]
      intro x hx
      have hne := List.all_eq_true.mp hall x hx
      rw [bne_iff_ne] at hne
      simpa using hne
    rw [hfilter]
    simp

/-- Witness for C5: re-adding "blog" to a registry that already holds it
is a no-op, and adding "blog/windows-1255" then "blog" leaves exactly the
first-registered entry. -/
theorem add_domain_dedup_first_wins_witness :
    add_messages_domain ⟨{ cfgAll with domains := [⟨"blog", "UTF-8"⟩] }, false, []⟩
        "blog" = ⟨{ cfgAll with domains := [⟨"blog", "UTF-8"⟩] }, false, []⟩ ∧
    (add_messages_domain (add_messages_domain stCacheOff "blog/windows-1255")
        "blog").config.domains.filter
        (fun x => x.name == (parseDomain "blog/windows-1255").name) =
      [parseDomain "blog/windows-1255"] :=
  ⟨(add_domain_dedup_first_wins
      ⟨{ cfgAll with domains := [⟨"blog", "UTF-8"⟩] }, false, []⟩ "blog" "blog"
      rfl).1 rfl,
   (add_domain_dedup_first_wins stCacheOff "blog/windows-1255" "blog" rfl).2 rfl⟩

/-- C6: set_default_messages_domain registers the base-name when absent
and marks it as the default, so afterwards the name is present and is the
default; and when no default was ever set, the first-added domain is the
default. -/
theorem set_default_domain_registers (st : GenState) (spec : String) :
    (set_default_messages_domain st spec).config.domains.any
        (fun x => x.name == (parseDomain spec).name) = true ∧
    defaultDomain (set_default_messages_domain st spec).config =
        some (parseDomain spec).name ∧
    (st.config.defaultDom = none → st.config.domains = [] →
        defaultDomain (add_messages_domain st spec).config =
          some (parseDomain spec).name) := by
  refine ⟨add_domain_mem st spec, rfl, ?_⟩
  intro hd hdom
  unfold add_messages_domain
  rw [if_neg (by rw [hdom]; simp)]
  simp [defaultDomain, hd, hdom]

/-- Witness for C6: setting "x" as default on a fresh generator where "x"
was never added registers it and makes it the default; the first-added
domain is the default when none was set. -/
theorem set_default_domain_registers_witness :
    (set_default_messages_domain stCacheOff "x").config.domains.any
        (fun x => x.name == (parseDomain "x").name) = true ∧
    defaultDomain (set_default_messages_domain stCacheOff "x").config = some "x" ∧
    defaultDomain (add_messages_domain stCacheOff "x").config = some "x" :=
  ⟨(set_default_domain_registers stCacheOff "x").1,
   (set_default_domain_registers stCacheOff "x").2.1,
   (set_default_domain_registers stCacheOff "x").2.2 rfl rfl⟩

/-- Witness for C8 at a cache-disabled state: the state after generate is
exactly the state before. -/
theorem generate_pure_config_witness :
    (generate noBackend stCacheOff [] "en").2.1.config = stCacheOff.config ∧
    (generate noBackend stCacheOff [] "en").2.1.cacheEnabled = stCacheOff.cacheEnabled ∧
    (generate noBackend stCacheOff [] "en").2.1 = stCacheOff :=
  ⟨(generate_pure_config noBackend stCacheOff [] "en").1,
   (generate_pure_config noBackend stCacheOff [] "en").2.1,
   (generate_pure_config noBackend stCacheOff [] "en").2.2 rfl⟩

end BoostLocale
